import Mathlib

/-!
# Verification of pixi-live2d-display (cubism2 pipeline and factory)

Shallow embedding of the cubism2 update pipeline
(`src/cubism2/Cubism2InternalModel.ts`), the cubism2 motion manager
(`src/cubism2/Cubism2MotionManager.ts`), and the loader/factory pipeline
(`src/factory/Live2DFactory.ts`), together with theorems settling the
frozen claims about them.

Live2D core parameters are modelled as total functions from parameter
index to value; JS numbers are modelled as exact rationals (`ℚ`) where the
code is pure arithmetic, and as reals (`ℝ`) where `Math.sin`/`Math.PI`
appear.  The proprietary Live2D core (`Live2DModelWebGL`,
`MotionQueueManager`, `Live2DMotion`) is opaque in the repository; where a
claim depends on its behaviour the model says so in the doc comment.
-/

namespace PixiLive2D

/-- `coreModel.addToParamFloat(i, v)` (two-argument form, weight defaults
to 1 in the Live2D core): adds `v` to the parameter at index `i`. -/
def addToParamFloat {α : Type} [Add α] (p : Nat → α) (i : Nat) (v : α) : Nat → α :=
  fun j => if j = i then p j + v else p j

/-- `coreModel.setParamFloat(i, v)`: overwrites the parameter at index `i`
with `v`. -/
def setParamFloat {α : Type} (p : Nat → α) (i : Nat) (v : α) : Nat → α :=
  fun j => if j = i then v else p j

theorem addToParamFloat_same {α : Type} [Add α] (p : Nat → α) (i : Nat) (v : α) :
    addToParamFloat p i v i = p i + v := by
  simp [addToParamFloat]

theorem addToParamFloat_other {α : Type} [Add α] (p : Nat → α) (i j : Nat) (v : α)
    (h : j ≠ i) : addToParamFloat p i v j = p j := by
  simp [addToParamFloat, h]

theorem setParamFloat_same {α : Type} (p : Nat → α) (i : Nat) (v : α) :
    setParamFloat p i v i = v := by
  simp [setParamFloat]

theorem setParamFloat_other {α : Type} (p : Nat → α) (i j : Nat) (v : α)
    (h : j ≠ i) : setParamFloat p i v j = p j := by
  simp [setParamFloat, h]

/-! ## Cubism2InternalModel.updateFocus (claim C7)

`Cubism2InternalModel.ts` lines 192-199.  The six cached parameter
indices are looked up in the constructor; `focusController.x/y` are the
focus values produced by the base class.  -/

/-- The six parameter indices cached by the `Cubism2InternalModel`
constructor (lines 51-56). -/
structure FocusIndices where
  eyeballXParamIndex : Nat
  eyeballYParamIndex : Nat
  angleXParamIndex : Nat
  angleYParamIndex : Nat
  angleZParamIndex : Nat
  bodyAngleXParamIndex : Nat

/-- `Cubism2InternalModel.updateFocus` (lines 192-199): six sequential
`addToParamFloat` calls on the core model, with `x = focusController.x`
and `y = focusController.y`. -/
def updateFocus (idx : FocusIndices) (x y : ℚ) (p : Nat → ℚ) : Nat → ℚ :=
  let p := addToParamFloat p idx.eyeballXParamIndex x
  let p := addToParamFloat p idx.eyeballYParamIndex y
  let p := addToParamFloat p idx.angleXParamIndex (x * 30)
  let p := addToParamFloat p idx.angleYParamIndex (y * 30)
  let p := addToParamFloat p idx.angleZParamIndex (x * y * -30)
  let p := addToParamFloat p idx.bodyAngleXParamIndex (x * 10)
  p

/-! ## Cubism2MotionManager.createMotion (claim C6)

`Cubism2MotionManager.ts` lines 40-47.  `definition.fade_in` and
`definition.fade_out` are optional numbers from the motion definition
JSON; the JS expression `definition.fade_in! > 0` is `false` when the
field is absent (`undefined > 0` is `false`). -/

/-- Modelled from the spec: `MOTION_FADING_DURATION` is a constant default
fade duration exported by `cubism-common/constants`, a module of this
repository that is not under `src/`; the claims treat it as an opaque
constant, so its numeric value (500 ms upstream) is irrelevant to the
theorems below. -/
def MOTION_FADING_DURATION : ℚ := 500

/-- The fade state set on the `Live2DMotion` returned by `createMotion`
via `motion.setFadeIn` / `motion.setFadeOut`. -/
structure MotionFades where
  fadeIn : ℚ
  fadeOut : ℚ
deriving DecidableEq

/-- The JS guard `v! > 0` on an optional number: `false` when the field is
absent (`undefined > 0` evaluates to `false`). -/
def jsGtZero : Option ℚ → Bool
  | none => false
  | some v => decide (0 < v)

/-- `Cubism2MotionManager.createMotion` (lines 40-47), restricted to the
fade configuration it performs: `setFadeIn(fade_in! > 0 ? fade_in! :
MOTION_FADING_DURATION)` and the analogous `setFadeOut`. -/
def createMotion (fade_in fade_out : Option ℚ) : MotionFades :=
  { fadeIn := if jsGtZero fade_in then fade_in.getD 0 else MOTION_FADING_DURATION
    fadeOut := if jsGtZero fade_out then fade_out.getD 0 else MOTION_FADING_DURATION }

/-! ## Cubism2MotionManager queue operations (claim C8)

`Cubism2MotionManager.ts` lines 61-75.  `MotionQueueManager` is part of
the proprietary Live2D core. -/

/-- Modelled from the spec: the proprietary core's `MotionQueueManager`
("the native core's own queue/fade primitives") holds a queue of playing
motions; `stopAllMotions` empties it. -/
def stopAllMotions {Motion : Type} (_q : List Motion) : List Motion := []

/-- Modelled from the spec: `MotionQueueManager.startMotion` appends the
motion to the queue and returns its entry number. -/
def startMotion {Motion : Type} (q : List Motion) (m : Motion) : List Motion × Nat :=
  (q ++ [m], q.length)

/-- `Cubism2MotionManager._startMotion` (lines 61-67): stops all motions
in the queue manager, then starts the new one.  (Setting
`onFinishHandler` does not touch the queue.) -/
def startMotionC2 {Motion : Type} (q : List Motion) (m : Motion) : List Motion × Nat :=
  startMotion (stopAllMotions q) m

/-- `Cubism2MotionManager._stopAllMotions` (lines 69-71). -/
def stopAllMotionsC2 {Motion : Type} (q : List Motion) : List Motion :=
  stopAllMotions q

/-- Modelled from the spec: `MotionQueueManager.updateParam` evaluates the
queued motions on the model and drops the ones that finished; it never
adds a motion.  Modelled as an arbitrary sublist-preserving filter. -/
def updateParamQueue {Motion : Type} (finished : Motion → Bool) (q : List Motion) :
    List Motion :=
  q.filter (fun m => !finished m)

/-- The operations `Cubism2MotionManager` performs on its queue manager. -/
inductive QueueOp (Motion : Type) where
  | start (m : Motion)
  | stopAll
  | update (finished : Motion → Bool)

/-- Running one manager-level operation on the queue. -/
def runQueueOp {Motion : Type} (q : List Motion) : QueueOp Motion → List Motion
  | .start m => (startMotionC2 q m).1
  | .stopAll => stopAllMotionsC2 q
  | .update finished => updateParamQueue finished q

/-- Running a sequence of manager-level operations from the initial empty
queue (`readonly queueManager = new MotionQueueManager()`, line 14). -/
def runQueueOps {Motion : Type} (ops : List (QueueOp Motion)) : List Motion :=
  ops.foldl runQueueOp []

/-! ## Cubism2InternalModel.updateNaturalMovements (claim C10)

`Cubism2InternalModel.ts` lines 201-210. -/

/-- The parameter indices used by `updateNaturalMovements`
(`angleXParamIndex`, `angleYParamIndex`, `angleZParamIndex`,
`bodyAngleXParamIndex`, `breathParamIndex`, cached in the constructor). -/
structure SwayIndices where
  angleX : Nat
  angleY : Nat
  angleZ : Nat
  bodyAngleX : Nat
  breath : Nat

/-- `Cubism2InternalModel.updateNaturalMovements` (lines 201-210):
`t = (now / 1000) * 2 * Math.PI`; four additive sinusoidal offsets via
`addToParamFloat`, then the breath parameter overwritten via
`setParamFloat`. -/
noncomputable def updateNaturalMovements (idx : SwayIndices) (now : ℝ) (p : Nat → ℝ) :
    Nat → ℝ :=
  let t := now / 1000 * 2 * Real.pi
  let p := addToParamFloat p idx.angleX (15 * Real.sin (t / 6.5345) * 0.5)
  let p := addToParamFloat p idx.angleY (8 * Real.sin (t / 3.5345) * 0.5)
  let p := addToParamFloat p idx.angleZ (10 * Real.sin (t / 5.5345) * 0.5)
  let p := addToParamFloat p idx.bodyAngleX (4 * Real.sin (t / 15.5345) * 0.5)
  setParamFloat p idx.breath (0.5 + 0.5 * Real.sin (t / 3.2345))

end PixiLive2D

namespace PixiLive2D

/-! ## Theorems for claims C6, C7, C8 -/

/-- The six parameter indices touched by `updateFocus`. -/
def focusIndexList (idx : FocusIndices) : List Nat :=
  [idx.eyeballXParamIndex, idx.eyeballYParamIndex, idx.angleXParamIndex,
    idx.angleYParamIndex, idx.angleZParamIndex, idx.bodyAngleXParamIndex]

/-- What claim C7 asserts of a single `updateFocus` call: the exact
increment of each of the six parameters, and that every other parameter
is untouched. -/
def FocusUpdateCorrect (idx : FocusIndices) (x y : ℚ) (p : Nat → ℚ) : Prop :=
  updateFocus idx x y p idx.eyeballXParamIndex = p idx.eyeballXParamIndex + x ∧
  updateFocus idx x y p idx.eyeballYParamIndex = p idx.eyeballYParamIndex + y ∧
  updateFocus idx x y p idx.angleXParamIndex = p idx.angleXParamIndex + 30 * x ∧
  updateFocus idx x y p idx.angleYParamIndex = p idx.angleYParamIndex + 30 * y ∧
  updateFocus idx x y p idx.angleZParamIndex = p idx.angleZParamIndex + -30 * (x * y) ∧
  updateFocus idx x y p idx.bodyAngleXParamIndex = p idx.bodyAngleXParamIndex + 10 * x ∧
  ∀ j, j ∉ focusIndexList idx → updateFocus idx x y p j = p j

/-- C7: for focus values `(x, y)`, `updateFocus` adds exactly `x` to
eyeball-X, `y` to eyeball-Y, `30*x` to angle-X, `30*y` to angle-Y,
`-30*x*y` to angle-Z and `10*x` to body-angle-X, and modifies no other
parameter (provided the six cached indices are distinct). -/
theorem updateFocus_spec (idx : FocusIndices) (x y : ℚ) (p : Nat → ℚ)
    (hnodup : (focusIndexList idx).Nodup) :
    FocusUpdateCorrect idx x y p := by
  obtain ⟨e1, e2, a1, a2, a3, b1⟩ := idx
  simp only [focusIndexList, List.nodup_cons, List.mem_cons, List.mem_singleton,
    List.not_mem_nil, or_false, not_or, List.nodup_nil, and_true] at hnodup
  obtain ⟨⟨h12, h13, h14, h15, h16⟩, ⟨h23, h24, h25, h26⟩, ⟨h34, h35, h36⟩,
    ⟨h45, h46⟩, h56, -⟩ := hnodup
  refine ⟨?_, ?_, ?_, ?_, ?_, ?_, ?_⟩
  · simp [updateFocus, addToParamFloat, h12, h13, h14, h15, h16,
      Ne.symm h12, Ne.symm h13, Ne.symm h14, Ne.symm h15, Ne.symm h16]
  · simp [updateFocus, addToParamFloat, h12, h23, h24, h25, h26,
      Ne.symm h12, Ne.symm h23, Ne.symm h24, Ne.symm h25, Ne.symm h26]
  · simp [updateFocus, addToParamFloat, h13, h23, h34, h35, h36,
      Ne.symm h13, Ne.symm h23, Ne.symm h34, Ne.symm h35, Ne.symm h36]
    ring
  · simp [updateFocus, addToParamFloat, h14, h24, h34, h45, h46,
      Ne.symm h14, Ne.symm h24, Ne.symm h34, Ne.symm h45, Ne.symm h46]
    ring
  · simp [updateFocus, addToParamFloat, h15, h25, h35, h45, h56,
      Ne.symm h15, Ne.symm h25, Ne.symm h35, Ne.symm h45, Ne.symm h56]
    ring
  · simp [updateFocus, addToParamFloat, h16, h26, h36, h46, h56,
      Ne.symm h16, Ne.symm h26, Ne.symm h36, Ne.symm h46, Ne.symm h56]
    ring
  · intro j hj
    simp only [focusIndexList, List.mem_cons, List.mem_singleton,
      List.not_mem_nil, or_false, not_or] at hj
    obtain ⟨g1, g2, g3, g4, g5, g6⟩ := hj
    simp [updateFocus, addToParamFloat, g1, g2, g3, g4, g5, g6]

/-- Witness for C7: concrete distinct indices `0..5`, focus `(1, 2)`,
zero-initialised parameters. -/
theorem updateFocus_spec_witness :
    (focusIndexList ⟨0, 1, 2, 3, 4, 5⟩).Nodup ∧
      FocusUpdateCorrect ⟨0, 1, 2, 3, 4, 5⟩ 1 2 (fun _ => 0) :=
  ⟨by decide, updateFocus_spec ⟨0, 1, 2, 3, 4, 5⟩ 1 2 (fun _ => 0) (by decide)⟩

/-- C6: the created motion's fade-in duration is `definition.fade_in`
exactly when that value is present and strictly positive, and the default
`MOTION_FADING_DURATION` otherwise (absent, zero, or negative); likewise
for fade-out from `definition.fade_out`. -/
theorem createMotion_fading_spec (fi fo : Option ℚ) :
    ((∃ v, fi = some v ∧ 0 < v ∧ (createMotion fi fo).fadeIn = v) ∨
      ((∀ v, fi = some v → ¬0 < v) ∧ (createMotion fi fo).fadeIn = MOTION_FADING_DURATION)) ∧
    ((∃ v, fo = some v ∧ 0 < v ∧ (createMotion fi fo).fadeOut = v) ∨
      ((∀ v, fo = some v → ¬0 < v) ∧
        (createMotion fi fo).fadeOut = MOTION_FADING_DURATION)) := by
  constructor
  · match fi with
    | none => exact Or.inr ⟨by simp, by simp [createMotion, jsGtZero]⟩
    | some v =>
      by_cases hv : 0 < v
      · exact Or.inl ⟨v, rfl, hv, by simp [createMotion, jsGtZero, hv]⟩
      · refine Or.inr ⟨?_, by simp [createMotion, jsGtZero, hv]⟩
        rintro w hw
        injection hw with hw
        exact hw ▸ hv
  · match fo with
    | none => exact Or.inr ⟨by simp, by simp [createMotion, jsGtZero]⟩
    | some v =>
      by_cases hv : 0 < v
      · exact Or.inl ⟨v, rfl, hv, by simp [createMotion, jsGtZero, hv]⟩
      · refine Or.inr ⟨?_, by simp [createMotion, jsGtZero, hv]⟩
        rintro w hw
        injection hw with hw
        exact hw ▸ hv

/-- A single queue operation keeps the queue at most a singleton. -/
theorem runQueueOp_length_le {Motion : Type} (q : List Motion) (op : QueueOp Motion)
    (h : q.length ≤ 1) : (runQueueOp q op).length ≤ 1 := by
  cases op with
  | start m => simp [runQueueOp, startMotionC2, startMotion, stopAllMotions]
  | stopAll => simp [runQueueOp, stopAllMotionsC2, stopAllMotions]
  | update finished =>
    exact le_trans (List.length_filter_le _ q) h

/-- Folding operations preserves the at-most-one-motion invariant. -/
theorem runQueueOps_aux {Motion : Type} (ops : List (QueueOp Motion)) :
    ∀ q : List Motion, q.length ≤ 1 → (ops.foldl runQueueOp q).length ≤ 1 := by
  induction ops with
  | nil => intro q h; simpa using h
  | cons op rest ih =>
    intro q h
    exact ih _ (runQueueOp_length_le q op h)

/-- C8: `_startMotion` stops every queued motion before starting the new
one, so afterwards the queue holds exactly the new motion; consequently
any sequence of manager operations from the initial empty queue keeps at
most one motion in the cubism2 queue. -/
theorem startMotionC2_queue_spec {Motion : Type} :
    (∀ (q : List Motion) (m : Motion), (startMotionC2 q m).1 = [m]) ∧
    (∀ ops : List (QueueOp Motion), (runQueueOps ops).length ≤ 1) := by
  constructor
  · intro q m
    simp [startMotionC2, startMotion, stopAllMotions]
  · intro ops
    exact runQueueOps_aux ops [] (by simp)

/-- The five parameter indices touched by `updateNaturalMovements`. -/
def swayIndexList (idx : SwayIndices) : List Nat :=
  [idx.angleX, idx.angleY, idx.angleZ, idx.bodyAngleX, idx.breath]

/-- What claim C10 asserts of a single `updateNaturalMovements` call at
timestamp `now`: the breath parameter is overwritten with
`0.5 + 0.5*sin(((now/1000)*2*pi)/3.2345)`, a value within `[0, 1]`; the
four angle parameters receive only additive sinusoidal offsets; and every
other parameter is untouched. -/
def NaturalMovementsCorrect (idx : SwayIndices) (now : ℝ) (p : Nat → ℝ) : Prop :=
  updateNaturalMovements idx now p idx.breath =
      0.5 + 0.5 * Real.sin (now / 1000 * 2 * Real.pi / 3.2345) ∧
  0 ≤ updateNaturalMovements idx now p idx.breath ∧
  updateNaturalMovements idx now p idx.breath ≤ 1 ∧
  updateNaturalMovements idx now p idx.angleX =
      p idx.angleX + 15 * Real.sin (now / 1000 * 2 * Real.pi / 6.5345) * 0.5 ∧
  updateNaturalMovements idx now p idx.angleY =
      p idx.angleY + 8 * Real.sin (now / 1000 * 2 * Real.pi / 3.5345) * 0.5 ∧
  updateNaturalMovements idx now p idx.angleZ =
      p idx.angleZ + 10 * Real.sin (now / 1000 * 2 * Real.pi / 5.5345) * 0.5 ∧
  updateNaturalMovements idx now p idx.bodyAngleX =
      p idx.bodyAngleX + 4 * Real.sin (now / 1000 * 2 * Real.pi / 15.5345) * 0.5 ∧
  ∀ j, j ∉ swayIndexList idx → updateNaturalMovements idx now p j = p j

/-- The breath value `0.5 + 0.5*sin s` always lies within `[0, 1]`. -/
theorem breath_value_bounds (s : ℝ) :
    0 ≤ 0.5 + 0.5 * Real.sin s ∧ 0.5 + 0.5 * Real.sin s ≤ 1 := by
  have h1 := Real.neg_one_le_sin s
  have h2 := Real.sin_le_one s
  constructor <;> nlinarith

/-- C10: `updateNaturalMovements` overwrites (rather than adds to) the
breath parameter with `0.5 + 0.5*sin(((now/1000)*2*pi)/3.2345)`, which
always lies within `[0, 1]`, while angle-X, angle-Y, angle-Z and
body-angle-X receive only additive sinusoidal offsets (provided the five
cached indices are distinct). -/
theorem updateNaturalMovements_spec (idx : SwayIndices) (now : ℝ) (p : Nat → ℝ)
    (hnodup : (swayIndexList idx).Nodup) :
    NaturalMovementsCorrect idx now p := by
  obtain ⟨a1, a2, a3, b1, br⟩ := idx
  simp only [swayIndexList, List.nodup_cons, List.mem_cons, List.mem_singleton,
    List.not_mem_nil, or_false, not_or, List.nodup_nil, and_true] at hnodup
  obtain ⟨⟨h12, h13, h14, h15⟩, ⟨h23, h24, h25⟩, ⟨h34, h35⟩, h45, -⟩ := hnodup
  have hb := breath_value_bounds (now / 1000 * 2 * Real.pi / 3.2345)
  refine ⟨?_, ?_, ?_, ?_, ?_, ?_, ?_, ?_⟩
  · simp [updateNaturalMovements, setParamFloat]
  · simpa [updateNaturalMovements, setParamFloat] using hb.1
  · simpa [updateNaturalMovements, setParamFloat] using hb.2
  · simp [updateNaturalMovements, setParamFloat, addToParamFloat, h12, h13, h14, h15,
      Ne.symm h12, Ne.symm h13, Ne.symm h14]
  · simp [updateNaturalMovements, setParamFloat, addToParamFloat, h23, h24, h25,
      Ne.symm h12, Ne.symm h23, Ne.symm h24]
  · simp [updateNaturalMovements, setParamFloat, addToParamFloat, h34, h35,
      Ne.symm h13, Ne.symm h23, Ne.symm h34]
  · simp [updateNaturalMovements, setParamFloat, addToParamFloat, h45,
      Ne.symm h14, Ne.symm h24, Ne.symm h34]
  · intro j hj
    simp only [swayIndexList, List.mem_cons, List.mem_singleton,
      List.not_mem_nil, or_false, not_or] at hj
    obtain ⟨g1, g2, g3, g4, g5⟩ := hj
    simp [updateNaturalMovements, setParamFloat, addToParamFloat, g1, g2, g3, g4, g5]

/-- Witness for C10: concrete distinct indices `0..4`, timestamp `0`,
zero-initialised parameters. -/
theorem updateNaturalMovements_spec_witness :
    (swayIndexList ⟨0, 1, 2, 3, 4⟩).Nodup ∧
      NaturalMovementsCorrect ⟨0, 1, 2, 3, 4⟩ 0 (fun _ => 0) :=
  ⟨by decide, updateNaturalMovements_spec ⟨0, 1, 2, 3, 4⟩ 0 (fun _ => 0) (by decide)⟩

/-! ## Cubism2InternalModel.getDrawableVertices (claim C9)

`Cubism2InternalModel.ts` lines 153-161. -/

/-- A JS thrown error; the repository only throws `TypeError`s in the
embedded functions. -/
inductive JsError where
  | typeError (msg : String)
deriving DecidableEq

/-- A `Float32Array` value together with whether it is the core model's
own internal buffer or a fresh allocation. -/
structure Buffer where
  data : List ℚ
  isCoreBuffer : Bool
deriving DecidableEq

/-- `Float32Array.prototype.slice()`: copies the contents into a freshly
allocated buffer. -/
def bufferSlice (b : Buffer) : Buffer :=
  { data := b.data, isCoreBuffer := false }

/-- The two core-model operations `getDrawableVertices` relies on:
`getDrawDataIndex` (returns `-1` for an unknown drawable ID) and
`getTransformedPoints` (returns the core's own points buffer for the
given index). -/
structure DrawableCore where
  getDrawDataIndex : String → Int
  getTransformedPoints : Int → List ℚ

/-- `coreModel.getTransformedPoints(i)` hands out the core's own buffer,
not a copy. -/
def getTransformedPointsBuffer (core : DrawableCore) (i : Int) : Buffer :=
  { data := core.getTransformedPoints i, isCoreBuffer := true }

/-- The argument of `getDrawableVertices(drawIndex: number | string)`. -/
inductive DrawIndexArg where
  | str (s : String)
  | num (n : Int)

/-- `Cubism2InternalModel.getDrawableVertices` (lines 153-161): a string
argument is resolved through `getDrawDataIndex` and rejected with a
`TypeError` when the result is `-1` (note the message interpolates the
already-reassigned `drawIndex`, i.e. `-1`); otherwise the transformed
points are returned through `.slice()`. -/
def getDrawableVertices (core : DrawableCore) : DrawIndexArg → Except JsError Buffer
  | .str s =>
    let drawIndex := core.getDrawDataIndex s
    if drawIndex = -1 then
      .error (.typeError ("Unable to find drawable ID: " ++ toString drawIndex))
    else
      .ok (bufferSlice (getTransformedPointsBuffer core drawIndex))
  | .num n => .ok (bufferSlice (getTransformedPointsBuffer core n))

/-- C9: `getDrawableVertices` throws a `TypeError` exactly on a string ID
the core cannot resolve; every resolvable argument (a valid ID string or
a numeric index) yields a fresh copy (`slice`) of the core's
transformed-points array, never the core's own buffer. -/
theorem getDrawableVertices_spec (core : DrawableCore) :
    (∀ s : String, core.getDrawDataIndex s = -1 →
      getDrawableVertices core (.str s) =
        .error (.typeError ("Unable to find drawable ID: " ++ toString (-1 : Int)))) ∧
    (∀ s : String, core.getDrawDataIndex s ≠ -1 →
      getDrawableVertices core (.str s) =
        .ok { data := core.getTransformedPoints (core.getDrawDataIndex s),
              isCoreBuffer := false }) ∧
    (∀ n : Int, getDrawableVertices core (.num n) =
        .ok { data := core.getTransformedPoints n, isCoreBuffer := false }) := by
  refine ⟨?_, ?_, ?_⟩
  · intro s h
    simp [getDrawableVertices, h]
  · intro s h
    simp [getDrawableVertices, h, bufferSlice, getTransformedPointsBuffer]
  · intro n
    simp [getDrawableVertices, bufferSlice, getTransformedPointsBuffer]

/-- Witness for C9: a core with one drawable `"body"` at index `2` whose
points buffer is `[2, 0]`; `"head"` is unknown. -/
theorem getDrawableVertices_spec_witness :
    (DrawableCore.mk (fun s => if s = "body" then 2 else -1)
        (fun i => [(i : ℚ), 0])).getDrawDataIndex "head" = -1 ∧
    (DrawableCore.mk (fun s => if s = "body" then 2 else -1)
        (fun i => [(i : ℚ), 0])).getDrawDataIndex "body" ≠ -1 ∧
    getDrawableVertices
        (DrawableCore.mk (fun s => if s = "body" then 2 else -1) (fun i => [(i : ℚ), 0]))
        (.str "head") =
      .error (.typeError ("Unable to find drawable ID: " ++ toString (-1 : Int))) ∧
    getDrawableVertices
        (DrawableCore.mk (fun s => if s = "body" then 2 else -1) (fun i => [(i : ℚ), 0]))
        (.str "body") = .ok { data := [2, 0], isCoreBuffer := false } := by
  refine ⟨by decide, by decide, ?_, ?_⟩
  · exact (getDrawableVertices_spec _).1 "head" (by decide)
  · exact (getDrawableVertices_spec _).2.1 "body" (by decide)

/-! ## jsonToSettings middleware (claim C4)

`Live2DFactory.ts` lines 66-85. -/

/-- The shapes `context.source` can take as seen by `jsonToSettings`:
an actual `ModelSettings` instance, some other value with
`typeof === 'object'` (a JSON object), or a non-object primitive. -/
inductive FactorySource (S J : Type) where
  | settingsInstance (s : S)
  | jsonObject (j : J)
  | primitive

/-- The `for (const runtime of Live2DFactory.runtimes)` loop: the first
runtime whose `createModelSettings` returns a settings object wins. -/
def resolveSettings {S J : Type} (runtimes : List (J → Option S)) (j : J) : Option S :=
  match runtimes with
  | [] => none
  | r :: rest =>
    match r j with
    | some s => some s
    | none => resolveSettings rest j

/-- The observable outcome of a successful `jsonToSettings` run: the
settings recorded on the context, whether `next()` was invoked, and
whether the `settingsLoaded` event was emitted. -/
structure JsonToSettingsOutcome (S : Type) where
  settings : S
  nextCalled : Bool
  emittedSettingsLoaded : Bool
deriving DecidableEq

/-- The `jsonToSettings` middleware (lines 66-85): a `ModelSettings`
instance is recorded directly; an object source is offered to each
registered runtime in order; everything else — and an object no runtime
accepts — raises `TypeError('Unknown settings format.')`. -/
def jsonToSettings {S J : Type} (runtimes : List (J → Option S)) :
    FactorySource S J → Except JsError (JsonToSettingsOutcome S)
  | .settingsInstance s => .ok ⟨s, true, false⟩
  | .jsonObject j =>
    match resolveSettings runtimes j with
    | some s => .ok ⟨s, true, true⟩
    | none => .error (.typeError "Unknown settings format.")
  | .primitive => .error (.typeError "Unknown settings format.")

/-- C4: `jsonToSettings` throws `TypeError('Unknown settings format.')`
exactly when the source is neither a `ModelSettings` instance nor an
object some registered runtime can turn into settings; in every other
case it records the resolved settings on the context and invokes the next
middleware. -/
theorem jsonToSettings_spec {S J : Type} (runtimes : List (J → Option S))
    (src : FactorySource S J) :
    (jsonToSettings runtimes src = .error (.typeError "Unknown settings format.") ↔
      (∀ s, src ≠ .settingsInstance s) ∧
      (∀ j, src = .jsonObject j → resolveSettings runtimes j = none)) ∧
    (∀ s, src = .settingsInstance s →
      jsonToSettings runtimes src = .ok ⟨s, true, false⟩) ∧
    (∀ j s, src = .jsonObject j → resolveSettings runtimes j = some s →
      jsonToSettings runtimes src = .ok ⟨s, true, true⟩) := by
  refine ⟨?_, ?_, ?_⟩
  · cases src with
    | settingsInstance s =>
      simp [jsonToSettings]
    | jsonObject j =>
      cases h : resolveSettings runtimes j with
      | none => simp [jsonToSettings, h]
      | some s => simp [jsonToSettings, h]
    | primitive =>
      simp [jsonToSettings]
  · rintro s rfl
    rfl
  · rintro j s rfl h
    simp [jsonToSettings, h]

/-- Witness for C4: one registered runtime accepting only the JSON value
`1` (producing settings `7`); sources `jsonObject 1`, `jsonObject 2` and
`primitive` behave as claimed. -/
theorem jsonToSettings_spec_witness :
    jsonToSettings [fun j : Nat => if j = 1 then some 7 else none]
        (FactorySource.jsonObject 1) = .ok ⟨7, true, true⟩ ∧
    jsonToSettings [fun j : Nat => if j = 1 then some 7 else none]
        (FactorySource.jsonObject 2) =
      .error (.typeError "Unknown settings format.") ∧
    jsonToSettings [fun j : Nat => if j = 1 then some 7 else none]
        (FactorySource.settingsInstance 5) = .ok ⟨5, true, false⟩ := by
  refine ⟨?_, ?_, ?_⟩
  · exact (jsonToSettings_spec _ _).2.2 1 7 rfl (by decide)
  · exact (jsonToSettings_spec [fun j : Nat => if j = 1 then some 7 else none]
      (FactorySource.jsonObject 2)).1.mpr (by simp [resolveSettings])
  · exact (jsonToSettings_spec _ _).2.1 5 rfl

/-! ## Live2DFactory.loadMotion task tracking (claims C3, C5)

`Live2DFactory.ts` lines 235-286.  `motionTasksMap` maps each motion
manager to a `Record<string, Promise[]>` keyed by group name and sparse
array index; the state below models the entry for one fixed manager
(the `WeakMap` keys tasks per manager structurally).  Promise identity is
modelled by a numeric task id drawn from a fresh counter; `started`
records, in order, the ids for which a `Live2DLoader.load` call was
actually issued. -/

/-- A motion definition from the settings JSON (`Cubism2Spec.Motion`). -/
structure MotionDef where
  file : String
  sound : Option String
deriving DecidableEq

/-- The task-tracking state of `Live2DFactory` for one motion manager. -/
structure MotionTaskState where
  tasks : String → Nat → Option Nat
  nextId : Nat
  started : List Nat

/-- What `loadMotion` hands back to the caller: either the immediate
`Promise.resolve(undefined)` (no definition at that group/index), or a
(possibly cached) loading task. -/
inductive LoadMotionReturn where
  | resolvedUndefined
  | task (id : Nat)
deriving DecidableEq

/-- `motionManager.definitions[group]?.[index]`. -/
def lookupDefinition (defs : String → Option (List MotionDef)) (group : String)
    (index : Nat) : Option MotionDef :=
  (defs group).bind (fun l => l.get? index)

/-- `Live2DFactory.loadMotion` up to the point the task is returned
(lines 235-280): bail out with a resolved-undefined promise when there is
no definition; otherwise `taskGroup[index] ??= Live2DLoader.load(...)...`
returns the cached pending task when present and starts (and caches) a
fresh load when not. -/
def loadMotion (defs : String → Option (List MotionDef)) (st : MotionTaskState)
    (group : String) (index : Nat) : LoadMotionReturn × MotionTaskState :=
  match lookupDefinition defs group index with
  | none => (.resolvedUndefined, st)
  | some _ =>
    match st.tasks group index with
    | some t => (.task t, st)
    | none =>
      (.task st.nextId,
        { tasks := fun g i =>
            if g = group ∧ i = index then some st.nextId else st.tasks g i
          nextId := st.nextId + 1
          started := st.started ++ [st.nextId] })

/-- `delete taskGroup[index]` (line 273). -/
def removeTask (st : MotionTaskState) (group : String) (index : Nat) : MotionTaskState :=
  { st with tasks := fun g i => if g = group ∧ i = index then none else st.tasks g i }

/-- `.catch(e => logger.warn(...))` (line 278): a rejected chain is
replaced by a promise fulfilled with the handler's return value
(`undefined`, i.e. `none`), and the warning is logged (`Bool` flag). -/
def pCatchUndefined {E M : Type} : Except E (Option M) → Except E (Option M) × Bool
  | .ok v => (.ok v, false)
  | .error _ => (.ok none, true)

/-- The settlement of a started motion-loading task, as a function of how
the underlying `Live2DLoader.load` promise settles (lines 269-278).  On
fulfillment the `.then` callback first deletes the cached task, then runs
`motionManager.createMotion` (whose failure rejects the chain); on
rejection the `.then` callback is skipped entirely.  Either way the final
`.catch` turns any rejection into a logged warning and an `undefined`
result.  Returns the new task state, the settled result of the returned
promise, and whether a warning was logged. -/
def settleMotionTask {E Data M : Type} (createMotion : Data → Except E M)
    (st : MotionTaskState) (group : String) (index : Nat) (load : Except E Data) :
    MotionTaskState × Except E (Option M) × Bool :=
  match load with
  | .ok data =>
    let st := removeTask st group index
    (st, pCatchUndefined ((createMotion data).map some))
  | .error e =>
    (st, pCatchUndefined (.error e))

/-- Concrete motion definitions for exercising `loadMotion`: one group
`"idle"` holding a single motion. -/
def demoDefs : String → Option (List MotionDef) :=
  fun g => if g = "idle" then some [⟨"idle_01.mtn", none⟩] else none

/-- The task state before any load: empty map, fresh counter at 0. -/
def demoInit : MotionTaskState :=
  ⟨fun _ _ => none, 0, []⟩

/-- The task state after the first `loadMotion(manager, "idle", 0)`. -/
def demoAfterFirstCall : MotionTaskState :=
  (loadMotion demoDefs demoInit "idle" 0).2

/-- The task state after the pending load settles by rejection (a failed
file fetch). -/
def demoAfterRejection : MotionTaskState :=
  (settleMotionTask
      (fun _ : Unit => (Except.ok (MotionFades.mk 500 500) : Except JsError MotionFades))
      demoAfterFirstCall "idle" 0 (.error (.typeError "network error"))).1

/-- Counterexample to C3 as stated: the first call caches task `0` and
starts one load, but after the underlying load settles by rejection the
task is still cached in `motionTasksMap` (the `delete` lives in the
`.then` callback, which a rejection skips), so a subsequent call returns
the stale settled task and starts no fresh load. -/
theorem loadMotion_settle_counterexample :
    (loadMotion demoDefs demoInit "idle" 0).1 = .task 0 ∧
    demoAfterFirstCall.started = [0] ∧
    demoAfterRejection.tasks "idle" 0 = some 0 ∧
    (loadMotion demoDefs demoAfterRejection "idle" 0).1 = .task 0 ∧
    (loadMotion demoDefs demoAfterRejection "idle" 0).2.started = [0] := by
  refine ⟨rfl, rfl, by decide, by decide, by decide⟩

/-- C3 (amended): a call while an earlier load for the same
(manager, group, index) is pending returns that same cached task and
starts no second load; when no task is cached a fresh one is started and
cached; a *fulfilled* settle removes the cached task (so a later call
starts a fresh load), while a *rejected* settle leaves the settled task
cached; and all of this touches only the (group, index) entry at hand. -/
theorem loadMotion_dedup_spec {E Data M : Type} (createMotion : Data → Except E M)
    (defs : String → Option (List MotionDef)) (st : MotionTaskState)
    (group : String) (index : Nat) :
    (∀ t d, lookupDefinition defs group index = some d →
      st.tasks group index = some t →
      loadMotion defs st group index = (.task t, st)) ∧
    (∀ d, lookupDefinition defs group index = some d →
      st.tasks group index = none →
      (loadMotion defs st group index).1 = .task st.nextId ∧
      (loadMotion defs st group index).2.tasks group index = some st.nextId ∧
      (loadMotion defs st group index).2.started = st.started ++ [st.nextId]) ∧
    (∀ data,
      (settleMotionTask createMotion st group index (.ok data)).1.tasks group index
        = none) ∧
    (∀ e, (settleMotionTask createMotion st group index (.error e)).1 = st) ∧
    (∀ g i, ¬(g = group ∧ i = index) →
      (loadMotion defs st group index).2.tasks g i = st.tasks g i ∧
      ∀ load, (settleMotionTask createMotion st group index load).1.tasks g i
        = st.tasks g i) := by
  refine ⟨?_, ?_, ?_, ?_, ?_⟩
  · intro t d hdef htask
    simp [loadMotion, hdef, htask]
  · intro d hdef htask
    simp [loadMotion, hdef, htask]
  · intro data
    simp [settleMotionTask, removeTask]
  · intro e
    rfl
  · intro g i hgi
    constructor
    · cases hdef : lookupDefinition defs group index with
      | none => simp [loadMotion, hdef]
      | some d =>
        cases htask : st.tasks group index with
        | none => simp [loadMotion, hdef, htask, hgi]
        | some t => simp [loadMotion, hdef, htask]
    · intro load
      cases load with
      | ok data => simp [settleMotionTask, removeTask, hgi]
      | error e => rfl

/-- Witness for C3 (amended): exercised on the concrete `demoDefs` run —
the second call during the pending load returns the cached task `0`
unchanged, and a fulfilled settle clears the cache slot. -/
theorem loadMotion_dedup_spec_witness :
    lookupDefinition demoDefs "idle" 0 = some ⟨"idle_01.mtn", none⟩ ∧
    demoAfterFirstCall.tasks "idle" 0 = some 0 ∧
    loadMotion demoDefs demoAfterFirstCall "idle" 0 = (.task 0, demoAfterFirstCall) ∧
    (settleMotionTask
        (fun _ : Unit => (Except.ok (MotionFades.mk 500 500) : Except JsError MotionFades))
        demoAfterFirstCall "idle" 0 (.ok ())).1.tasks "idle" 0 = none :=
  ⟨by decide, by decide,
    (loadMotion_dedup_spec
        (fun _ : Unit => (Except.ok (MotionFades.mk 500 500) : Except JsError MotionFades))
        demoDefs demoAfterFirstCall "idle" 0).1 0 ⟨"idle_01.mtn", none⟩
      (by decide) (by decide),
    (loadMotion_dedup_spec
        (fun _ : Unit => (Except.ok (MotionFades.mk 500 500) : Except JsError MotionFades))
        demoDefs demoAfterFirstCall "idle" 0).2.2.1 ()⟩

/-- C5: when `definitions[group]` has no definition at `index`,
`loadMotion` returns an already-resolved `undefined` promise and starts
no load; and however a started task settles, the returned promise
fulfills (never rejects) — with `undefined` and a logged warning whenever
the file load or the motion creation failed. -/
theorem loadMotion_error_resilience {E Data M : Type} (createMotion : Data → Except E M)
    (defs : String → Option (List MotionDef)) (st : MotionTaskState)
    (group : String) (index : Nat) :
    (lookupDefinition defs group index = none →
      loadMotion defs st group index = (.resolvedUndefined, st)) ∧
    (∀ load : Except E Data, ∃ v,
      (settleMotionTask createMotion st group index load).2.1 = .ok v) ∧
    (∀ e, (settleMotionTask createMotion st group index (.error e)).2 = (.ok none, true)) ∧
    (∀ data e, createMotion data = .error e →
      (settleMotionTask createMotion st group index (.ok data)).2 = (.ok none, true)) := by
  refine ⟨?_, ?_, ?_, ?_⟩
  · intro hdef
    simp [loadMotion, hdef]
  · intro load
    cases load with
    | ok data =>
      cases hc : createMotion data with
      | ok m => exact ⟨some m, by simp [settleMotionTask, pCatchUndefined, Except.map, hc]⟩
      | error e => exact ⟨none, by simp [settleMotionTask, pCatchUndefined, Except.map, hc]⟩
    | error e => exact ⟨none, rfl⟩
  · intro e
    rfl
  · intro data e hc
    simp [settleMotionTask, pCatchUndefined, Except.map, hc]

/-- Witness for C5: group `"walk"` has no definitions, so the call
resolves to `undefined` in place; a rejected load and a failing
`createMotion` both settle to a fulfilled `undefined` with a warning. -/
theorem loadMotion_error_resilience_witness :
    lookupDefinition demoDefs "walk" 0 = none ∧
    loadMotion demoDefs demoInit "walk" 0 = (.resolvedUndefined, demoInit) ∧
    (settleMotionTask
        (fun _ : Unit => (Except.error (JsError.typeError "bad motion data")
          : Except JsError MotionFades))
        demoAfterFirstCall "idle" 0 (.error (.typeError "network error"))).2
      = (.ok none, true) ∧
    (fun _ : Unit => (Except.error (JsError.typeError "bad motion data")
        : Except JsError MotionFades)) () = .error (.typeError "bad motion data") ∧
    (settleMotionTask
        (fun _ : Unit => (Except.error (JsError.typeError "bad motion data")
          : Except JsError MotionFades))
        demoAfterFirstCall "idle" 0 (.ok ())).2 = (.ok none, true) :=
  ⟨by decide,
    (loadMotion_error_resilience
        (fun _ : Unit => (Except.error (JsError.typeError "bad motion data")
          : Except JsError MotionFades))
        demoDefs demoInit "walk" 0).1 (by decide),
    (loadMotion_error_resilience
        (fun _ : Unit => (Except.error (JsError.typeError "bad motion data")
          : Except JsError MotionFades))
        demoDefs demoAfterFirstCall "idle" 0).2.2.1 (.typeError "network error"),
    rfl,
    (loadMotion_error_resilience
        (fun _ : Unit => (Except.error (JsError.typeError "bad motion data")
          : Except JsError MotionFades))
        demoDefs demoAfterFirstCall "idle" 0).2.2.2 () (.typeError "bad motion data") rfl⟩

end PixiLive2D

namespace PixiLive2D

/-! ## Cubism2InternalModel.update (claim C1)

`Cubism2InternalModel.ts` lines 163-190.  The per-frame pipeline is
modelled as the ordered list of operations the method performs; the
sub-updates themselves (motion evaluation, physics, pose, the core
`model.update()`) happen inside the opaque core or in collaborator
objects and are opaque operations here.  -/

/-- One operation performed by `Cubism2InternalModel.update`. -/
inductive UpdateOp where
  | superUpdate
  | emitBeforeMotionUpdate
  | motionManagerUpdate (motionUpdated : Bool)
  | emitAfterMotionUpdate
  | saveParam
  | eyeBlinkUpdate
  | updateFocus
  | updateNaturalMovements
  | physicsUpdate
  | poseUpdate
  | emitBeforeModelUpdate
  | modelUpdate
  | loadParam
deriving DecidableEq

/-- The run-dependent inputs of one `update` call: what
`motionManager.update` returned, and which optional collaborators
(`eyeBlink`, `physics`, `pose`) are present on the instance. -/
structure Cubism2UpdateConfig where
  motionUpdated : Bool
  hasEyeBlink : Bool
  hasPhysics : Bool
  hasPose : Bool

/-- `Cubism2InternalModel.update` (lines 163-190) as its ordered
operation trace: super update, the motion update (whose Bool result is
recorded), `saveParam`, the conditional `eyeBlink?.update` guarded by
`!motionUpdated`, focus, natural movements, the optional
`physics?.update` and `pose?.update`, the core `model.update()`, and
`model.loadParam()`. -/
def cubism2Update (c : Cubism2UpdateConfig) : List UpdateOp :=
  [.superUpdate, .emitBeforeMotionUpdate, .motionManagerUpdate c.motionUpdated,
    .emitAfterMotionUpdate, .saveParam]
  ++ (if !c.motionUpdated && c.hasEyeBlink then [.eyeBlinkUpdate] else [])
  ++ [.updateFocus, .updateNaturalMovements]
  ++ (if c.hasPhysics then [.physicsUpdate] else [])
  ++ (if c.hasPose then [.poseUpdate] else [])
  ++ [.emitBeforeModelUpdate, .modelUpdate, .loadParam]

/-- `x` occurs strictly before `y` in the trace `tr` (both occur, and the
first occurrence of `x` precedes the first occurrence of `y`; every
operation occurs at most once in a `cubism2Update` trace). -/
def opBefore (x y : UpdateOp) (tr : List UpdateOp) : Prop :=
  x ∈ tr ∧ y ∈ tr ∧ tr.indexOf x < tr.indexOf y

instance (x y : UpdateOp) (tr : List UpdateOp) : Decidable (opBefore x y tr) := by
  unfold opBefore
  infer_instance

/-- What claim C1 asserts of the trace of one `update` call (on an
instance whose `eyeBlink` is present, as the constructor guarantees):
the eye-blink update runs exactly when the motion update reported no
parameter change, physics/pose run exactly when present, and the steps
happen in the claimed order, ending in `loadParam`. -/
def UpdatePipelineOrdered (c : Cubism2UpdateConfig) : Prop :=
  (UpdateOp.eyeBlinkUpdate ∈ cubism2Update c ↔ c.motionUpdated = false) ∧
  (UpdateOp.physicsUpdate ∈ cubism2Update c ↔ c.hasPhysics = true) ∧
  (UpdateOp.poseUpdate ∈ cubism2Update c ↔ c.hasPose = true) ∧
  opBefore (.motionManagerUpdate c.motionUpdated) .saveParam (cubism2Update c) ∧
  (c.motionUpdated = false →
    opBefore .saveParam .eyeBlinkUpdate (cubism2Update c) ∧
    opBefore .eyeBlinkUpdate .updateFocus (cubism2Update c)) ∧
  opBefore .saveParam .updateFocus (cubism2Update c) ∧
  opBefore .updateFocus .updateNaturalMovements (cubism2Update c) ∧
  (c.hasPhysics = true →
    opBefore .updateNaturalMovements .physicsUpdate (cubism2Update c) ∧
    opBefore .physicsUpdate .modelUpdate (cubism2Update c)) ∧
  (c.hasPose = true →
    opBefore .updateNaturalMovements .poseUpdate (cubism2Update c) ∧
    opBefore .poseUpdate .modelUpdate (cubism2Update c)) ∧
  (c.hasPhysics = true → c.hasPose = true →
    opBefore .physicsUpdate .poseUpdate (cubism2Update c)) ∧
  opBefore .updateNaturalMovements .modelUpdate (cubism2Update c) ∧
  opBefore .modelUpdate .loadParam (cubism2Update c) ∧
  (cubism2Update c).getLast? = some .loadParam

instance (c : Cubism2UpdateConfig) : Decidable (UpdatePipelineOrdered c) := by
  unfold UpdatePipelineOrdered
  infer_instance

/-- C1: for every call to `Cubism2InternalModel.update`, the per-frame
pipeline performs, in order: motion update, `saveParam`, eye-blink (if
and only if the motion update reported no change), focus, idle sway,
physics (when present), pose (when present), the core model update, and
finally `loadParam`. -/
theorem cubism2Update_order_spec (c : Cubism2UpdateConfig)
    (he : c.hasEyeBlink = true) : UpdatePipelineOrdered c := by
  obtain ⟨m, e, ph, po⟩ := c
  cases he
  cases m <;> cases ph <;> cases po <;> decide

/-- Witness for C1: a run where the motion update reported no change and
both physics and pose are present. -/
theorem cubism2Update_order_spec_witness :
    (Cubism2UpdateConfig.mk false true true true).hasEyeBlink = true ∧
      UpdatePipelineOrdered (Cubism2UpdateConfig.mk false true true true) :=
  ⟨rfl, cubism2Update_order_spec (Cubism2UpdateConfig.mk false true true true) rfl⟩

end PixiLive2D

namespace PixiLive2D

/-! ## Live2DFactory.setupLive2DModel event ordering (claim C2)

`Live2DFactory.ts` lines 213-233, with the `modelLoaded` and
`textureLoaded` emissions inside the `setupLive2DModel` middleware
(lines 139-163).  A successful run is modelled as a small transition
system over the observable event trace: the middleware chain proceeds
through its phases (the `await`s), texture loading completes at an
arbitrary time, the `Promise.all(...).then(() => emit('ready'))`
continuation may fire any time after both awaited events have been
emitted, and the final `emit('load')` requires both the middleware chain
and the `ready` emission to have happened.  The ordering claim is proved
as an invariant over all reachable states, i.e. over every interleaving
of these asynchronous continuations. -/

/-- The lifecycle events claim C2 talks about. -/
inductive SetupEvent where
  | modelLoaded
  | textureLoaded
  | ready
  | load
deriving DecidableEq

/-- Progress of the `await` chain through `runMiddlewares` and the tail
of `setupLive2DModel` (lines 223-232). -/
inductive MwPhase where
  | beforeModelLoaded
  | awaitingTextures
  | finishingMiddlewares
  | awaitingReady
  | done
deriving DecidableEq

/-- A state of one `setupLive2DModel` run: the events emitted so far (in
order), whether the texture loads have all finished, where the
middleware/`load` chain stands, and whether the `ready` continuation has
fired. -/
structure SetupState where
  trace : List SetupEvent
  texturesDone : Bool
  phase : MwPhase
  readyEmitted : Bool

/-- The state when `setupLive2DModel` is entered. -/
def initSetupState : SetupState :=
  ⟨[], false, .beforeModelLoaded, false⟩

/-- One asynchronous scheduling step of a successful `setupLive2DModel`
run.

* `texturesComplete` — the `Promise.all(textureLoadings)` input settles.
* `emitModelLoaded` — the middleware's `await next()` returns with the
  internal model and `emit('modelLoaded')` runs (line 153) before the
  textures are awaited.
* `emitTextureLoaded` — `await Promise.all(textureLoadings)` returns and
  `emit('textureLoaded')` runs (lines 158-159).
* `emitReady` — the `Promise.all([textureLoaded, modelLoaded]).then`
  continuation fires (line 221); it can only fire after both events have
  been emitted, once.
* `middlewaresFinish` — `await runMiddlewares(...)` returns (line 223).
* `emitLoad` — `await readyEventEmitted` has returned, so `emit('load')`
  runs (lines 230-232); this additionally requires the `ready`
  continuation to have fired. -/
inductive SetupStep : SetupState → SetupState → Prop where
  | texturesComplete (s : SetupState) :
      SetupStep s { s with texturesDone := true }
  | emitModelLoaded (s : SetupState) (h : s.phase = .beforeModelLoaded) :
      SetupStep s
        { s with trace := s.trace ++ [.modelLoaded], phase := .awaitingTextures }
  | emitTextureLoaded (s : SetupState) (h1 : s.phase = .awaitingTextures)
      (h2 : s.texturesDone = true) :
      SetupStep s
        { s with trace := s.trace ++ [.textureLoaded], phase := .finishingMiddlewares }
  | emitReady (s : SetupState) (h1 : SetupEvent.modelLoaded ∈ s.trace)
      (h2 : SetupEvent.textureLoaded ∈ s.trace) (h3 : s.readyEmitted = false) :
      SetupStep s { s with trace := s.trace ++ [.ready], readyEmitted := true }
  | middlewaresFinish (s : SetupState) (h : s.phase = .finishingMiddlewares) :
      SetupStep s { s with phase := .awaitingReady }
  | emitLoad (s : SetupState) (h1 : s.phase = .awaitingReady)
      (h2 : s.readyEmitted = true) :
      SetupStep s { s with trace := s.trace ++ [.load], phase := .done }

/-- A state is reachable in some successful run of `setupLive2DModel`. -/
def SetupReachable (s : SetupState) : Prop :=
  Relation.ReflTransGen SetupStep initSetupState s

/-- In the trace `tr`, every occurrence of `y` is strictly preceded by an
occurrence of `x`: `y` is emitted only after `x`. -/
def EmittedOnlyAfter (x y : SetupEvent) (tr : List SetupEvent) : Prop :=
  ∀ l1 l2, tr = l1 ++ y :: l2 → x ∈ l1

/-- The ordering claim C2 makes about the event trace. -/
def SetupOrdered (tr : List SetupEvent) : Prop :=
  EmittedOnlyAfter .modelLoaded .ready tr ∧
  EmittedOnlyAfter .textureLoaded .ready tr ∧
  EmittedOnlyAfter .ready .load tr

/-- Splitting a snoc: if `tr ++ [e] = l1 ++ y :: l2` then either the
distinguished `y` is the appended `e` (and `l1 = tr`), or the split
already occurs inside `tr`. -/
theorem snoc_split {α : Type} {tr l1 l2 : List α} {y e : α}
    (h : tr ++ [e] = l1 ++ y :: l2) :
    (l1 = tr ∧ y = e ∧ l2 = []) ∨ ∃ l2x, tr = l1 ++ y :: l2x ∧ l2 = l2x ++ [e] := by
  rcases List.append_eq_append_iff.mp h with ⟨a, ha1, ha2⟩ | ⟨c, hc1, hc2⟩
  · cases a with
    | nil =>
      rw [List.nil_append] at ha2
      injection ha2 with h1 h2
      exact Or.inl ⟨by simpa using ha1, h1.symm, h2.symm⟩
    | cons x xs =>
      exfalso
      have hlen := congrArg List.length ha2
      simp at hlen
  · cases c with
    | nil =>
      rw [List.append_nil] at hc1
      rw [List.nil_append] at hc2
      injection hc2 with h1 h2
      exact Or.inl ⟨hc1.symm, h1, h2⟩
    | cons x xs =>
      rw [List.cons_append] at hc2
      injection hc2 with h1 h2
      exact Or.inr ⟨xs, by rw [hc1, h1], h2⟩

/-- Appending an event preserves `EmittedOnlyAfter`, provided the
appended event, when it is the guarded one, is already preceded by its
required predecessor. -/
theorem emittedOnlyAfter_snoc {x y e : SetupEvent} {tr : List SetupEvent}
    (h : EmittedOnlyAfter x y tr) (he : y = e → x ∈ tr) :
    EmittedOnlyAfter x y (tr ++ [e]) := by
  intro l1 l2 hsplit
  rcases snoc_split hsplit with ⟨h1, h2, -⟩ | ⟨l2x, h1, -⟩
  · exact h1 ▸ he h2
  · exact h l1 l2x h1

/-- The invariant carried through every run: the trace is ordered as
claimed, and the `readyEmitted` flag faithfully records a `ready`
emission. -/
def SetupInv (s : SetupState) : Prop :=
  SetupOrdered s.trace ∧ (s.readyEmitted = true → SetupEvent.ready ∈ s.trace)

theorem setupInv_init : SetupInv initSetupState := by
  refine ⟨⟨?_, ?_, ?_⟩, ?_⟩ <;>
    first
      | (intro l1 l2 h; exact absurd h (by simp [initSetupState]))
      | (intro h; exact absurd h (by simp [initSetupState]))

theorem setupInv_step {s t : SetupState} (hinv : SetupInv s) (hstep : SetupStep s t) :
    SetupInv t := by
  obtain ⟨⟨o1, o2, o3⟩, hflag⟩ := hinv
  cases hstep with
  | texturesComplete =>
    exact ⟨⟨o1, o2, o3⟩, hflag⟩
  | emitModelLoaded h =>
    refine ⟨⟨?_, ?_, ?_⟩, ?_⟩
    · exact emittedOnlyAfter_snoc o1 (fun hx => absurd hx (by decide))
    · exact emittedOnlyAfter_snoc o2 (fun hx => absurd hx (by decide))
    · exact emittedOnlyAfter_snoc o3 (fun hx => absurd hx (by decide))
    · intro hr
      exact List.mem_append_left _ (hflag hr)
  | emitTextureLoaded h1 h2 =>
    refine ⟨⟨?_, ?_, ?_⟩, ?_⟩
    · exact emittedOnlyAfter_snoc o1 (fun hx => absurd hx (by decide))
    · exact emittedOnlyAfter_snoc o2 (fun hx => absurd hx (by decide))
    · exact emittedOnlyAfter_snoc o3 (fun hx => absurd hx (by decide))
    · intro hr
      exact List.mem_append_left _ (hflag hr)
  | emitReady h1 h2 h3 =>
    refine ⟨⟨?_, ?_, ?_⟩, ?_⟩
    · exact emittedOnlyAfter_snoc o1 (fun _ => h1)
    · exact emittedOnlyAfter_snoc o2 (fun _ => h2)
    · exact emittedOnlyAfter_snoc o3 (fun hx => absurd hx (by decide))
    · intro _
      exact List.mem_append_right _ (by simp)
  | middlewaresFinish h =>
    exact ⟨⟨o1, o2, o3⟩, hflag⟩
  | emitLoad h1 h2 =>
    refine ⟨⟨?_, ?_, ?_⟩, ?_⟩
    · exact emittedOnlyAfter_snoc o1 (fun hx => absurd hx (by decide))
    · exact emittedOnlyAfter_snoc o2 (fun hx => absurd hx (by decide))
    · exact emittedOnlyAfter_snoc o3 (fun _ => hflag h2)
    · intro hr
      exact List.mem_append_left _ (hflag hr)

theorem setupInv_reachable {s : SetupState} (h : SetupReachable s) : SetupInv s := by
  induction h with
  | refl => exact setupInv_init
  | tail _ hstep ih => exact setupInv_step ih hstep

/-- C2: in every (partial or complete) successful run of
`Live2DFactory.setupLive2DModel`, under every interleaving of its
asynchronous continuations, the `ready` event is emitted only after both
a `modelLoaded` and a `textureLoaded` event, and the `load` event is
never emitted before the `ready` event. -/
theorem setupLive2DModel_event_order (s : SetupState) (h : SetupReachable s) :
    SetupOrdered s.trace :=
  (setupInv_reachable h).1

/-- Witness for C2: the complete run — textures finish, `modelLoaded`,
`textureLoaded`, `ready`, middlewares return, `load` — is reachable, and
its full trace is ordered as claimed. -/
theorem setupLive2DModel_event_order_witness :
    SetupReachable ⟨[.modelLoaded, .textureLoaded, .ready, .load], true, .done, true⟩ ∧
      SetupOrdered [.modelLoaded, .textureLoaded, .ready, .load] := by
  have h1 : SetupReachable ⟨[], true, .beforeModelLoaded, false⟩ :=
    Relation.ReflTransGen.tail Relation.ReflTransGen.refl
      (SetupStep.texturesComplete initSetupState)
  have h2 : SetupReachable ⟨[.modelLoaded], true, .awaitingTextures, false⟩ :=
    Relation.ReflTransGen.tail h1
      (SetupStep.emitModelLoaded ⟨[], true, .beforeModelLoaded, false⟩ rfl)
  have h3 : SetupReachable
      ⟨[.modelLoaded, .textureLoaded], true, .finishingMiddlewares, false⟩ :=
    Relation.ReflTransGen.tail h2
      (SetupStep.emitTextureLoaded ⟨[.modelLoaded], true, .awaitingTextures, false⟩
        rfl rfl)
  have h4 : SetupReachable
      ⟨[.modelLoaded, .textureLoaded, .ready], true, .finishingMiddlewares, true⟩ :=
    Relation.ReflTransGen.tail h3
      (SetupStep.emitReady
        ⟨[.modelLoaded, .textureLoaded], true, .finishingMiddlewares, false⟩
        (by decide) (by decide) rfl)
  have h5 : SetupReachable
      ⟨[.modelLoaded, .textureLoaded, .ready], true, .awaitingReady, true⟩ :=
    Relation.ReflTransGen.tail h4
      (SetupStep.middlewaresFinish
        ⟨[.modelLoaded, .textureLoaded, .ready], true, .finishingMiddlewares, true⟩ rfl)
  have h6 : SetupReachable
      ⟨[.modelLoaded, .textureLoaded, .ready, .load], true, .done, true⟩ :=
    Relation.ReflTransGen.tail h5
      (SetupStep.emitLoad
        ⟨[.modelLoaded, .textureLoaded, .ready], true, .awaitingReady, true⟩ rfl rfl)
  exact ⟨h6, setupLive2DModel_event_order _ h6⟩

end PixiLive2D
